import Mathlib

/-!
Verification of the core of the binder IPC driver in src/module/new/binder.c
through a shallow embedding.  Pointers (queue addresses, binder pointers,
cookies) are modelled as natural numbers with 0 playing the role of NULL.
The protocol command constants live in the external header binder.h (not in
the repository); they are modelled as arbitrary distinct naturals, which is
all the driver code relies on.  User-space memory accesses that the claims
do not exercise as failure points (put_user / copy_to_user on the read path)
are modelled as succeeding; copy_from_user on the write path is modelled by
an explicit success flag carried with the transaction data.  Kernel
allocation (kmalloc) is modelled as always succeeding.
-/

set_option linter.unusedVariables false

namespace BinderIPC

/-- Pointer values.  0 is NULL. -/
abbrev Ptr := Nat

-- Error numbers (linux errno values); the driver returns their negations.
def EPERM : Int := 1
def EAGAIN : Int := 11
def ENOMEM : Int := 12
def EFAULT : Int := 14
def EBUSY : Int := 16
def EINVAL : Int := 22
def ENOSPC : Int := 28

-- Protocol command codes from the external binder.h header: distinct tokens.
def BC_TRANSACTION : Nat := 1
def BC_REPLY : Nat := 2
def BC_REQUEST_DEATH_NOTIFICATION : Nat := 3
def BC_CLEAR_DEATH_NOTIFICATION : Nat := 4
def BC_ENTER_LOOPER : Nat := 5
def BC_EXIT_LOOPER : Nat := 6
def BC_REGISTER_LOOPER : Nat := 7
def BR_TRANSACTION : Nat := 8
def BR_REPLY : Nat := 9
def BR_TRANSACTION_COMPLETE : Nat := 10
def BR_SPAWN_LOOPER : Nat := 11
def BR_FAILED_REPLY : Nat := 12
def BR_DEAD_REPLY : Nat := 13
/-- The source retypes dying transactions and death notifications to
BC_DEAD_BINDER and the read dispatcher matches BR_DEAD_BINDER; the intent
(spec section 4.5) is a single dead-binder code, modelled as one token. -/
def BR_DEAD_BINDER : Nat := 14
def BR_CLEAR_DEATH_NOTIFICATION_DONE : Nat := 15

-- flat_binder_object type codes (external header): distinct tokens.
def BINDER_TYPE_BINDER : Nat := 21
def BINDER_TYPE_WEAK_BINDER : Nat := 22
def BINDER_TYPE_HANDLE : Nat := 23
def BINDER_TYPE_WEAK_HANDLE : Nat := 24

def TF_ONE_WAY : Nat := 1

-- Looper state bits from the source enum.
def BINDER_LOOPER_STATE_INVALID : Nat := 0x00
def BINDER_LOOPER_STATE_REGISTERED : Nat := 0x01
def BINDER_LOOPER_STATE_ENTERED : Nat := 0x02
def BINDER_LOOPER_STATE_READY : Nat := 0x03
/-- BINDER_LOOPER_STATE_ACTIVE is used by bcmd_write_looper but absent from
the source enum; modelled as the REGISTERED|ENTERED mask (= READY). -/
def BINDER_LOOPER_STATE_ACTIVE : Nat := 0x03

def MAX_TRANSACTION_SIZE : Nat := 4000

-- Sizes in bytes for a 64-bit target: sizeof(void *) = 8, sizeof(uint32_t) = 4,
-- sizeof(size_t) = 8, sizeof(struct binder_transaction_data) = 40,
-- sizeof(struct bcmd_notifier_data) = 16, sizeof(struct flat_binder_object) = 24.
def sizeofU32 : Nat := 4
def sizeofTdata : Nat := 40
def sizeofNotifierData : Nat := 16
def sizeofFlatObj : Nat := 24
def sizeofSizeT : Nat := 8

/-- MSG_BUF_ALIGN: round up to pointer size. -/
def MSG_BUF_ALIGN (n : Nat) : Nat := ((n + 7) / 8) * 8

/-- obj_id_t: composite key (owner queue pointer, binder pointer). -/
structure ObjId where
  owner : Ptr
  binder : Ptr
deriving Repr, DecidableEq

/-- struct binder_notifier. -/
structure Notifier where
  event : Nat
  cookie : Ptr
  notifyQueue : Ptr
deriving Repr, DecidableEq

def BINDER_EVT_OBJ_DEAD : Nat := 1

/-- struct binder_obj: an object-table entry. -/
structure BObj where
  objId : ObjId
  realCookie : Ptr
  notifiers : List Notifier
deriving Repr, DecidableEq

/-- struct flat_binder_object (the fields the driver touches). -/
structure FlatObj where
  type : Nat
  binder : Ptr
  cookie : Ptr
deriving Repr, DecidableEq

/-- struct binder_proc.  The rb-tree object table is modelled as a list of
entries with distinct obj_id keys; the queue field is the queue identity
(its address in the source). -/
structure Proc where
  queue : Ptr
  pid : Nat
  objects : List BObj
  maxThreads : Int
  numLoopers : Int
  pendingLoopers : Int
deriving Repr, DecidableEq

/-- struct bcmd_msg.  The payload buffer is modelled by its sizes plus the
list of embedded flat_binder_object descriptors named by the offsets table. -/
structure Msg where
  type : Nat
  objId : ObjId
  code : Nat
  flags : Nat
  senderPid : Nat
  senderEuid : Nat
  cookie : Ptr
  replyQueue : Option Ptr
  dataSize : Nat
  offsetsSize : Nat
  descs : List FlatObj
deriving Repr, DecidableEq

/-- struct binder_thread.  The source assigns thread->last_error although
the struct declaration omits the field; the field is included here as the
code (and spec section 3) uses it. -/
structure Thread where
  pid : Nat
  queue : Ptr
  state : Nat
  pendingReplies : Nat
  incoming : List Msg
  lastError : Nat
deriving Repr, DecidableEq

/-! ## Object registry (C3): binder_find_obj / binder_new_obj -/

/-- rb-tree lookup by composite key, as a first-match list search. -/
def objLookup : List BObj → ObjId → Option BObj
  | [], _ => none
  | o :: rest, oid => if o.objId = oid then some o else objLookup rest oid

/-- _binder_find_obj. -/
def binder_find_obj_any (proc : Proc) (owner : Ptr) (binder : Ptr) : Option BObj :=
  objLookup proc.objects ⟨owner, binder⟩

/-- binder_find_obj: lookup with the process itself as owner. -/
def binder_find_obj (proc : Proc) (binder : Ptr) : Option BObj :=
  binder_find_obj_any proc proc.queue binder

/-- _binder_new_obj: lookup-or-insert.  The source allocates a node with
real_cookie uninitialized (modelled as 0) and empty notifier list, and on a
racing pre-existing entry returns that entry instead. -/
def binder_new_obj_any (proc : Proc) (owner : Ptr) (binder : Ptr) : Proc × BObj :=
  match binder_find_obj_any proc owner binder with
  | some obj => (proc, obj)
  | none =>
      let obj : BObj := { objId := ⟨owner, binder⟩, realCookie := 0, notifiers := [] }
      ({ proc with objects := proc.objects ++ [obj] }, obj)

/-- binder_new_obj: intern with the process itself as owner. -/
def binder_new_obj (proc : Proc) (binder : Ptr) : Proc × BObj :=
  binder_new_obj_any proc proc.queue binder

/-- Replace the registry entry with the given key (in-place object mutation
in the source). -/
def procUpdateObj (proc : Proc) (obj : BObj) : Proc :=
  { proc with objects := proc.objects.map (fun o => if o.objId = obj.objId then obj else o) }

/-! ## Flat-object translator (C4) -/

/-- bcmd_write_flat_obj: sender-side descriptor rewrite. -/
def bcmd_write_flat_obj (proc : Proc) (bp : FlatObj) : Except Int (Proc × FlatObj) :=
  if bp.type = BINDER_TYPE_BINDER ∨ bp.type = BINDER_TYPE_WEAK_BINDER then
    let (proc1, obj) :=
      match binder_find_obj proc bp.binder with
      | some obj => (proc, obj)
      | none =>
          -- the source stores the descriptor cookie into the fresh object
          let (p1, o1) := binder_new_obj proc bp.binder
          let o2 := { o1 with realCookie := bp.cookie }
          (procUpdateObj p1 o2, o2)
    .ok (proc1,
      { bp with
          type := if bp.type = BINDER_TYPE_BINDER then BINDER_TYPE_HANDLE
                  else BINDER_TYPE_WEAK_HANDLE,
          cookie := obj.objId.owner })
  else if bp.type = BINDER_TYPE_HANDLE ∨ bp.type = BINDER_TYPE_WEAK_HANDLE then
    match binder_find_obj_any proc bp.cookie bp.binder with
    | none => .error (-EINVAL)
    | some _ => .ok (proc, bp)
  else
    .error (-EINVAL)

/-- bcmd_read_flat_obj: receiver-side descriptor rewrite. -/
def bcmd_read_flat_obj (proc : Proc) (bp : FlatObj) : Except Int (Proc × FlatObj) :=
  if bp.type = BINDER_TYPE_HANDLE ∨ bp.type = BINDER_TYPE_WEAK_HANDLE then
    match binder_find_obj_any proc bp.cookie bp.binder with
    | some obj =>
        if bp.cookie = proc.queue then
          .ok (proc,
            { bp with
                type := if bp.type = BINDER_TYPE_HANDLE then BINDER_TYPE_BINDER
                        else BINDER_TYPE_WEAK_BINDER,
                cookie := obj.realCookie })
        else
          .ok (proc, bp)
    | none =>
        let (proc1, _) := binder_new_obj_any proc bp.cookie bp.binder
        .ok (proc1, bp)
  else
    .error (-EFAULT)

/-! ## Write side (C5, C6 write half, C7 looper, C8 dispatcher) -/

/-- struct bcmd_transaction_data, as the write path consumes it.  The user
payload is modelled by its sizes plus the descriptor list named by the
offsets table; copyOk models whether copy_from_user of the payload
succeeds. -/
structure TData where
  targetHandle : Ptr
  code : Nat
  flags : Nat
  dataSize : Nat
  offsetsSize : Nat
  descs : List FlatObj
  copyOk : Bool
deriving Repr, DecidableEq, Inhabited

/-- struct bcmd_notifier_data. -/
structure NotifierData where
  binder : Ptr
  cookie : Ptr
deriving Repr, DecidableEq, Inhabited

/-- The descriptor loop of bcmd_write_msg_buf: rewrite each embedded
descriptor in order, stopping at the first error; descriptors already
rewritten stay rewritten in the buffer (in-place mutation in the source). -/
def write_buf_objs (proc : Proc) : List FlatObj → Int × Proc × List FlatObj
  | [] => (0, proc, [])
  | bp :: rest =>
      match bcmd_write_flat_obj proc bp with
      | .error e => (e, proc, bp :: rest)
      | .ok (proc1, bp1) =>
          let (r, proc2, rest1) := write_buf_objs proc1 rest
          (r, proc2, bp1 :: rest1)

/-- bcmd_write_msg_buf: copy the payload in from user space, then translate
every embedded descriptor.  Returns 0 on success, a negative errno on
failure, together with the (partially) updated registry and buffer.  The
per-offset bounds check of the source is subsumed by modelling the offsets
table as the descriptor list itself. -/
def bcmd_write_msg_buf (proc : Proc) (tdata : TData) : Int × Proc × List FlatObj :=
  if tdata.copyOk = false then (-EFAULT, proc, tdata.descs)
  else write_buf_objs proc tdata.descs

/-- Result of a write-path command: ioctl-visible return, updated records,
and the list of successful enqueues (destination queue, message). -/
structure WTRes where
  r : Int
  proc : Proc
  thread : Thread
  sends : List (Ptr × Msg)
deriving Repr, DecidableEq

/-- The common tail of bcmd_write_transaction after the message and the
destination queue have been picked: header fill-in, payload copy and
translation (with the source's inverted success test), enqueue on the
destination, pending-reply accounting and the BR_TRANSACTION_COMPLETE ack.
openQ tells which queues accept writes (bcmd_write_msg success). -/
def write_transaction_tail (openQ : Ptr → Bool) (proc : Proc) (thread : Thread)
    (q : Ptr) (msg0 : Msg) (tdata : TData) (bcmd : Nat) (euid : Nat)
    (completeObjId : ObjId) : WTRes :=
  let msg1 : Msg :=
    { msg0 with
        type := bcmd, code := tdata.code, flags := tdata.flags,
        senderPid := proc.pid, senderEuid := euid,
        replyQueue := if tdata.flags &&& TF_ONE_WAY ≠ 0 then none else some thread.queue,
        dataSize := tdata.dataSize, offsetsSize := tdata.offsetsSize }
  -- if (tdata->data_size > 0) { if (!bcmd_write_msg_buf(...)) goto failed_load; }
  -- bcmd_write_msg_buf returns 0 on success, so the branch discards the
  -- message exactly when the copy and every translation succeeded.
  let step : Except Proc (Proc × Msg) :=
    if tdata.dataSize > 0 then
      let (r, proc1, descs1) := bcmd_write_msg_buf proc tdata
      if r = 0 then .error proc1
      else .ok (proc1, { msg1 with descs := descs1 })
    else .ok (proc, msg1)
  match step with
  | .error proc1 =>
      ⟨-1, proc1, { thread with lastError := BR_FAILED_REPLY }, []⟩
  | .ok (proc1, msg2) =>
      if openQ q then
        let thread1 :=
          if bcmd = BC_TRANSACTION ∧ tdata.flags &&& TF_ONE_WAY = 0 then
            { thread with pendingReplies := thread.pendingReplies + 1 }
          else thread
        -- TR-COMPLETE ack written back onto the issuing thread's own inbox
        let complete : Msg :=
          { type := BR_TRANSACTION_COMPLETE, objId := completeObjId,
            code := tdata.code, flags := tdata.flags,
            senderPid := 0, senderEuid := 0, cookie := 0, replyQueue := none,
            dataSize := 0, offsetsSize := 0, descs := [] }
        if openQ thread.queue then
          ⟨0, proc1, thread1, [(q, msg2), (thread.queue, complete)]⟩
        else
          ⟨-1, proc1, { thread1 with lastError := BR_FAILED_REPLY }, [(q, msg2)]⟩
      else
        ⟨-1, proc1, { thread with lastError := BR_DEAD_REPLY }, []⟩

/-- bcmd_write_transaction: BC_TRANSACTION resolves its target object and
allocates a fresh message; BC_REPLY pops the top incoming transaction and
reuses its message.  ctxObj is the context_mgr_obj global. -/
def bcmd_write_transaction (openQ : Ptr → Bool) (ctxObj : Option BObj)
    (proc : Proc) (thread : Thread) (tdata : TData) (bcmd : Nat) (euid : Nat) : WTRes :=
  if bcmd = BC_TRANSACTION then
    let binder : Ptr := tdata.targetHandle
    let obj? := if binder = 0 then ctxObj else binder_find_obj proc binder
    match obj? with
    | none => ⟨-1, proc, { thread with lastError := BR_FAILED_REPLY }, []⟩
    | some obj =>
        let q := obj.objId.owner
        -- binder_alloc_msg: fresh message, header fields filled in below
        let msg0 : Msg :=
          { type := 0, objId := obj.objId, code := 0, flags := 0,
            senderPid := 0, senderEuid := 0, cookie := 0, replyQueue := none,
            dataSize := tdata.dataSize, offsetsSize := tdata.offsetsSize, descs := [] }
        write_transaction_tail openQ proc thread q msg0 tdata bcmd euid obj.objId
  else
    -- BC_REPLY: pop the top incoming transaction without checking
    match thread.incoming with
    | [] => ⟨-1, proc, { thread with lastError := BR_FAILED_REPLY }, []⟩
    | top :: rest =>
        let thread1 := { thread with incoming := rest }
        let q := top.replyQueue.getD 0
        -- binder_realloc_msg reuses the popped message; obj_id is reset to NULLs
        let msg0 : Msg := { top with objId := ⟨0, 0⟩ }
        write_transaction_tail openQ proc thread1 q msg0 tdata bcmd euid ⟨0, 0⟩

/-- bcmd_write_notifier: build a death-notification control message and
enqueue it on the owner queue of the named object.  The source body uses
thread->last_error although its parameter list omits the thread; the thread
is passed here as the call site intends. -/
def bcmd_write_notifier (openQ : Ptr → Bool) (proc : Proc) (thread : Thread)
    (nd : NotifierData) (bcmd : Nat) : WTRes :=
  match binder_find_obj proc nd.binder with
  | none => ⟨-1, proc, { thread with lastError := BR_FAILED_REPLY }, []⟩
  | some obj =>
      let msg : Msg :=
        { type := bcmd, objId := obj.objId, code := 0, flags := 0,
          senderPid := 0, senderEuid := 0, cookie := nd.cookie,
          replyQueue := some proc.queue,
          dataSize := 0, offsetsSize := 0, descs := [] }
      if openQ obj.objId.owner then
        ⟨0, proc, thread, [(obj.objId.owner, msg)]⟩
      else
        ⟨-1, proc, { thread with lastError := BR_DEAD_REPLY }, []⟩

/-- bcmd_write_looper: the looper state machine (spec section 4.7). -/
def bcmd_write_looper (proc : Proc) (thread : Thread) (bcmd : Nat) : WTRes :=
  let fail : WTRes := ⟨-1, proc, { thread with lastError := BR_FAILED_REPLY }, []⟩
  if bcmd = BC_ENTER_LOOPER then
    if thread.state &&& BINDER_LOOPER_STATE_ACTIVE ≠ 0 then fail
    else
      ⟨0, { proc with numLoopers := proc.numLoopers + 1 },
        { thread with state := thread.state ||| BINDER_LOOPER_STATE_ENTERED }, []⟩
  else if bcmd = BC_EXIT_LOOPER then
    if thread.state &&& BINDER_LOOPER_STATE_ENTERED ≠ 0 then
      ⟨0, { proc with numLoopers := proc.numLoopers - 1 },
        { thread with state := thread.state &&& (15 - BINDER_LOOPER_STATE_ACTIVE) }, []⟩
    else fail
  else if bcmd = BC_REGISTER_LOOPER then
    if thread.state &&& BINDER_LOOPER_STATE_ACTIVE ≠ 0 then fail
    else ⟨0, { proc with pendingLoopers := proc.pendingLoopers - 1 }, thread, []⟩
  else fail

/-- The user-space write buffer: a byte size together with decode oracles
giving the u32 command word, transaction record or notifier record starting
at a byte offset (get_user / copy_from_user of well-formed user memory). -/
structure UserWriteBuf where
  size : Nat
  word : Nat → Nat
  tdata : Nat → TData
  notifier : Nat → NotifierData

/-- Result of binder_thread_write: consumed byte count (or negative errno),
updated records, enqueues, the err accumulator (which the source tests in an
empty if-statement), and the byte offsets at which command words were
fetched. -/
structure TWRes where
  consumed : Int
  proc : Proc
  thread : Thread
  sends : List (Ptr × Msg)
  errAcc : Int
  fetched : List Nat
deriving Repr

/-- The command loop of binder_thread_write, from byte offset p.
A command word is fetched at p only while p + sizeof(u32) < size (strict,
as in the source).  fuel bounds the recursion; the wrapper supplies enough
for the loop to run to completion. -/
def binder_thread_write_loop (openQ : Ptr → Bool) (ctxObj : Option BObj) (euid : Nat)
    (buf : UserWriteBuf) : Nat → Nat → Proc → Thread → TWRes
  | 0, p, proc, thread => ⟨(p : Int), proc, thread, [], 0, []⟩
  | fuel + 1, p, proc, thread =>
    if p + sizeofU32 < buf.size then
      let bcmd := buf.word p
      let p1 := p + sizeofU32
      if bcmd = BC_TRANSACTION ∨ bcmd = BC_REPLY then
        if p1 + sizeofTdata > buf.size then ⟨-EFAULT, proc, thread, [], 0, [p]⟩
        else
          let td := buf.tdata p1
          let p2 := p1 + sizeofTdata
          let bad :=
            td.dataSize > 0 ∧
              (td.offsetsSize / sizeofSizeT * sizeofFlatObj + td.offsetsSize > td.dataSize ∨
               td.dataSize > MAX_TRANSACTION_SIZE)
          if bad then ⟨-EINVAL, proc, thread, [], 0, [p]⟩
          else
            let w := bcmd_write_transaction openQ ctxObj proc thread td bcmd euid
            let rec1 := binder_thread_write_loop openQ ctxObj euid buf fuel p2 w.proc w.thread
            ⟨rec1.consumed, rec1.proc, rec1.thread, w.sends ++ rec1.sends,
              w.r + rec1.errAcc, p :: rec1.fetched⟩
      else if bcmd = BC_REQUEST_DEATH_NOTIFICATION ∨ bcmd = BC_CLEAR_DEATH_NOTIFICATION then
        if p1 + sizeofNotifierData > buf.size then ⟨-EFAULT, proc, thread, [], 0, [p]⟩
        else
          let nd := buf.notifier p1
          let p2 := p1 + sizeofNotifierData
          let w := bcmd_write_notifier openQ proc thread nd bcmd
          let rec1 := binder_thread_write_loop openQ ctxObj euid buf fuel p2 w.proc w.thread
          ⟨rec1.consumed, rec1.proc, rec1.thread, w.sends ++ rec1.sends,
            w.r + rec1.errAcc, p :: rec1.fetched⟩
      else if bcmd = BC_ENTER_LOOPER ∨ bcmd = BC_EXIT_LOOPER ∨ bcmd = BC_REGISTER_LOOPER then
        let w := bcmd_write_looper proc thread bcmd
        let rec1 := binder_thread_write_loop openQ ctxObj euid buf fuel p1 w.proc w.thread
        ⟨rec1.consumed, rec1.proc, rec1.thread, w.sends ++ rec1.sends,
          w.r + rec1.errAcc, p :: rec1.fetched⟩
      else
        ⟨-EINVAL, proc, thread, [], 0, [p]⟩
    else
      ⟨(p : Int), proc, thread, [], 0, []⟩

/-- binder_thread_write: run the command loop over the whole buffer.  Each
iteration advances by at least one command word, so size/4 + 1 fuel always
suffices. -/
def binder_thread_write (openQ : Ptr → Bool) (ctxObj : Option BObj) (euid : Nat)
    (buf : UserWriteBuf) (proc : Proc) (thread : Thread) : TWRes :=
  binder_thread_write_loop openQ ctxObj euid buf (buf.size / sizeofU32 + 1) 0 proc thread

/-! ## Read side (C4 read half, C5 delivery, C6 owner-side notifiers, C7 spawn, C8 loop) -/

/-- What a read handler writes into the user read buffer. -/
inductive Out where
  | spawnLooper : Out
  | tr : Nat → Msg → Out
  | clearDone : Out
  | deadBinder : Out
deriving Repr, DecidableEq

/-- Result of a read-side handler: byte count or negative errno, updated
records, whether the message was consumed (the source sets *pmsg to NULL),
and the buffer writes. -/
structure HRes where
  n : Int
  proc : Proc
  thread : Thread
  consumed : Bool
  out : List Out
deriving Repr, DecidableEq

/-- The descriptor loop of bcmd_read_transaction, mirroring write_buf_objs. -/
def read_buf_objs (proc : Proc) : List FlatObj → Int × Proc × List FlatObj
  | [] => (0, proc, [])
  | bp :: rest =>
      match bcmd_read_flat_obj proc bp with
      | .error e => (e, proc, bp :: rest)
      | .ok (proc1, bp1) =>
          let (r, proc2, rest1) := read_buf_objs proc1 rest
          (r, proc2, bp1 :: rest1)

/-- bcmd_read_transaction: deliver a BC_TRANSACTION/BC_REPLY message into the
read buffer.  The space check precedes every effect; user-space copies are
modelled as succeeding. -/
def bcmd_read_transaction (proc : Proc) (thread : Thread) (msg : Msg) (size : Nat) : HRes :=
  let cmd := if msg.type = BC_TRANSACTION then BR_TRANSACTION else BR_REPLY
  let dataOff := MSG_BUF_ALIGN (sizeofU32 + sizeofTdata)
  if dataOff + msg.dataSize > size then ⟨-ENOSPC, proc, thread, false, []⟩
  else
    let (r, proc1, descs1) := read_buf_objs proc msg.descs
    if r < 0 then ⟨r, proc1, thread, false, []⟩
    else
      let msg1 := { msg with descs := descs1 }
      let thread1 :=
        if msg.type = BC_TRANSACTION then
          if msg.flags &&& TF_ONE_WAY = 0 then
            { thread with incoming := msg1 :: thread.incoming }
          else thread
        else
          if thread.pendingReplies > 0 then
            { thread with pendingReplies := thread.pendingReplies - 1 }
          else thread
      ⟨((dataOff + msg.dataSize : Nat) : Int), proc1, thread1, true, [.tr cmd msg1]⟩

/-- Remove the first notifier satisfying the predicate, if any. -/
def removeFirstNotifier (p : Notifier → Bool) : List Notifier → Option (List Notifier)
  | [] => none
  | n :: rest =>
      if p n then some rest
      else (removeFirstNotifier p rest).map (fun l => n :: l)

/-- bcmd_read_notifier: owner-side processing of death-notification control
messages (register on request; on clear, remove the first match and report
BR_CLEAR_DEATH_NOTIFICATION_DONE). -/
def bcmd_read_notifier (proc : Proc) (thread : Thread) (msg : Msg) (size : Nat) : HRes :=
  match binder_find_obj_any proc proc.queue msg.objId.binder with
  | none => ⟨-EFAULT, proc, thread, false, []⟩
  | some obj =>
      if msg.type = BC_REQUEST_DEATH_NOTIFICATION then
        let notifier : Notifier :=
          { event := BINDER_EVT_OBJ_DEAD, cookie := msg.cookie,
            notifyQueue := msg.replyQueue.getD 0 }
        let obj1 := { obj with notifiers := obj.notifiers ++ [notifier] }
        ⟨0, procUpdateObj proc obj1, thread, true, []⟩
      else
        if size < sizeofU32 then ⟨-ENOSPC, proc, thread, false, []⟩
        else
          let matches_ := fun n =>
            n.event == BINDER_EVT_OBJ_DEAD && n.cookie == msg.cookie &&
              n.notifyQueue == msg.replyQueue.getD 0
          match removeFirstNotifier matches_ obj.notifiers with
          | some rest =>
              let obj1 := { obj with notifiers := rest }
              ⟨(sizeofU32 : Int), procUpdateObj proc obj1, thread, true, [.clearDone]⟩
          | none => ⟨0, proc, thread, true, []⟩

/-- bcmd_read_dead_binder: emit the bare BR_DEAD_BINDER command word. -/
def bcmd_read_dead_binder (proc : Proc) (thread : Thread) (msg : Msg) (size : Nat) : HRes :=
  if size < sizeofU32 then ⟨-ENOSPC, proc, thread, false, []⟩
  else ⟨(sizeofU32 : Int), proc, thread, true, [.deadBinder]⟩

/-- Result of bcmd_spawn_on_busy: byte count reported to the caller, whether
BR_SPAWN_LOOPER was actually written, and the updated process record. -/
structure SpawnRes where
  bytes : Nat
  wrote : Bool
  proc : Proc
deriving Repr, DecidableEq

/-- bcmd_spawn_on_busy: emit BR_SPAWN_LOOPER when the process queue is
holding more than one message and the looper pool can still grow.  As in the
source, sizeof(cmd) is reported whenever the queue size exceeds one, even
when the looper test failed and nothing was written. -/
def bcmd_spawn_on_busy (proc : Proc) (qsize : Nat) (size : Nat) : SpawnRes :=
  if size < sizeofU32 then ⟨0, false, proc⟩
  else if qsize > 1 then
    if proc.numLoopers + proc.pendingLoopers < proc.maxThreads then
      ⟨sizeofU32, true, { proc with pendingLoopers := proc.pendingLoopers + 1 }⟩
    else
      ⟨sizeofU32, false, proc⟩
  else ⟨0, false, proc⟩

/-- State threaded through binder_thread_read: the process and thread
records and the contents of the per-thread inbox and process-wide queue. -/
structure RState where
  proc : Proc
  thread : Thread
  inbox : List Msg
  procQ : List Msg
deriving Repr, DecidableEq

/-- One dequeue event of the read loop: which queue was picked and the state
the choice was made in. -/
structure Ev where
  fromThread : Bool
  pre : RState
deriving Repr, DecidableEq

/-- Result of the read loop / binder_thread_read. -/
structure ReadRes where
  r : Int
  st : RState
  outs : List Out
  evs : List Ev
deriving Repr, DecidableEq

/-- The dispatch switch of binder_thread_read on the dequeued message type,
for the recognized types. -/
def read_dispatch (proc : Proc) (thread : Thread) (msg : Msg) (size : Nat) : HRes :=
  if msg.type = BC_TRANSACTION ∨ msg.type = BC_REPLY then
    bcmd_read_transaction proc thread msg size
  else if msg.type = BC_REQUEST_DEATH_NOTIFICATION ∨
      msg.type = BC_CLEAR_DEATH_NOTIFICATION then
    bcmd_read_notifier proc thread msg size
  else
    bcmd_read_dead_binder proc thread msg size

/-- The dispatch loop of binder_thread_read.  Per iteration the source
prefers the thread inbox when it is non-empty or replies are pending, else
the process queue; a blocking dequeue on an empty queue is modelled with the
non-blocking outcome (-EAGAIN).  On ENOSPC the unconsumed message is pushed
back at the head of the queue it came from and the loop stops; on other
negative handler results the error is returned as the overall result. -/
def read_loop : Nat → RState → Nat → ReadRes
  | 0, st, _ => ⟨0, st, [], []⟩
  | fuel + 1, st, size =>
    if size < sizeofU32 then ⟨0, st, [], []⟩
    else
      let useThread := !st.inbox.isEmpty || decide (0 < st.thread.pendingReplies)
      let ev : Ev := ⟨useThread, st⟩
      match (if useThread then st.inbox else st.procQ) with
      | [] => ⟨-EAGAIN, st, [], [ev]⟩
      | msg :: qrest =>
        let st1 :=
          if useThread then { st with inbox := qrest } else { st with procQ := qrest }
        if msg.type = BC_TRANSACTION ∨ msg.type = BC_REPLY ∨
            msg.type = BC_REQUEST_DEATH_NOTIFICATION ∨
            msg.type = BC_CLEAR_DEATH_NOTIFICATION ∨ msg.type = BR_DEAD_BINDER then
          let hres := read_dispatch st1.proc st1.thread msg size
          let st2 : RState := { st1 with proc := hres.proc, thread := hres.thread }
          if hres.n ≥ 0 then
            let rec1 := read_loop fuel st2 (size - hres.n.toNat)
            ⟨(if rec1.r < 0 then rec1.r else hres.n + rec1.r), rec1.st,
              hres.out ++ rec1.outs, ev :: rec1.evs⟩
          else if hres.n = -ENOSPC then
            -- put the message back at the head of the queue it came from
            let st3 :=
              if hres.consumed then st2
              else if useThread then { st2 with inbox := msg :: st2.inbox }
              else { st2 with procQ := msg :: st2.procQ }
            ⟨0, st3, hres.out, [ev]⟩
          else
            ⟨hres.n, st2, hres.out, [ev]⟩
        else
          -- default: kfree(msg); return -EFAULT
          ⟨-EFAULT, st1, [], [ev]⟩

/-- binder_thread_read: the spawn check first (its reported byte count
advances the buffer), then the dispatch loop.  Every continuing iteration
dequeues one message, so inbox + procQ + 1 fuel always suffices. -/
def binder_thread_read (st : RState) (size : Nat) : ReadRes :=
  let sp := bcmd_spawn_on_busy st.proc st.procQ.length size
  let outs0 : List Out := if sp.wrote then [.spawnLooper] else []
  let st0 : RState := { st with proc := sp.proc }
  let res := read_loop (st.inbox.length + st.procQ.length + 1) st0 (size - sp.bytes)
  if res.r < 0 then ⟨res.r, res.st, outs0 ++ res.outs, res.evs⟩
  else ⟨(sp.bytes : Int) + res.r, res.st, outs0 ++ res.outs, res.evs⟩

/-! ## Process teardown (C6 firing) and context manager (section 4.8) -/

/-- The notifier fan-out loop of binder_free_proc for one owned object: each
notifier is detached from the list first, then a BR_DEAD_BINDER message
carrying its registered cookie is enqueued on its queue (a failed enqueue,
openQ false, is swallowed).  Each emitted event also records the notifier
list as it stood at enqueue time. -/
def fire_notifier_steps (openQ : Ptr → Bool) : List Notifier → List (List Notifier × Ptr × Ptr)
  | [] => []
  | n :: rest =>
      (if openQ n.notifyQueue then [(rest, n.notifyQueue, n.cookie)] else []) ++
        fire_notifier_steps openQ rest

/-- The object-table walk of binder_free_proc (the function first tears the
process queue and the thread records down through the external message-queue
drain; the walk over proc->obj_tree is what the death fan-out claim is
about).  Entries owned by another process are plain references and are freed
silently; owned entries fan BR_DEAD_BINDER out to their notifiers.  Returns
the successful (queue, cookie) enqueues in order. -/
def binder_free_proc_objs (procQueue : Ptr) (openQ : Ptr → Bool) :
    List BObj → List (Ptr × Ptr)
  | [] => []
  | obj :: rest =>
      if obj.objId.owner ≠ procQueue then
        binder_free_proc_objs procQueue openQ rest
      else
        (fire_notifier_steps openQ obj.notifiers).map (fun s => s.2) ++
          binder_free_proc_objs procQueue openQ rest

/-- The context-manager globals: context_mgr_obj (NULL at module load) and
context_mgr_uid (-1 at module load). -/
structure CtxState where
  ctxMgrObj : Option BObj
  ctxMgrUid : Int
deriving Repr, DecidableEq

def initialCtxState : CtxState := ⟨none, -1⟩

/-- cmd_set_context_mgr, exactly as written: the function refuses with
-EBUSY while context_mgr_obj is NULL, remembers the first euid otherwise,
refuses other euids with -EPERM, and (re)registers the caller object. -/
def cmd_set_context_mgr (cs : CtxState) (proc : Proc) (euid : Nat) : Int × CtxState × Proc :=
  if cs.ctxMgrObj = none then (-EBUSY, cs, proc)
  else
    if cs.ctxMgrUid = -1 then
      let (proc1, obj) := binder_new_obj proc 0
      (0, ⟨some obj, (euid : Int)⟩, proc1)
    else if cs.ctxMgrUid ≠ (euid : Int) then (-EPERM, cs, proc)
    else
      let (proc1, obj) := binder_new_obj proc 0
      (0, ⟨some obj, cs.ctxMgrUid⟩, proc1)

/-! ## Shared concrete example states -/

/-- A process owning binder pointer 5 with cookie 7; its queue identity is 10. -/
def exProcA : Proc :=
  { queue := 10, pid := 100, objects := [⟨⟨10, 5⟩, 7, []⟩],
    maxThreads := 0, numLoopers := 0, pendingLoopers := 0 }

/-- A thread of exProcA with inbox queue identity 11. -/
def exThread : Thread :=
  { pid := 101, queue := 11, state := 0, pendingReplies := 0, incoming := [], lastError := 0 }

/-- A world in which every message queue accepts writes. -/
def allOpen : Ptr → Bool := fun _ => true

/-- A 16-byte no-descriptor payload addressed at handle 5, user copy fine. -/
def exTd16 : TData :=
  { targetHandle := 5, code := 1, flags := 0, dataSize := 16, offsetsSize := 0,
    descs := [], copyOk := true }

/-! ## Registry lemmas -/

theorem objLookup_some {objs : List BObj} {k : ObjId} {o : BObj}
    (h : objLookup objs k = some o) : o.objId = k := by
  induction objs with
  | nil => simp [objLookup] at h
  | cons a rest ih =>
      by_cases ha : a.objId = k
      · simp [objLookup, ha] at h; rw [← h]; exact ha
      · simp [objLookup, ha] at h; exact ih h

theorem objLookup_append_none {objs : List BObj} {k : ObjId} (o : BObj)
    (h : objLookup objs k = none) :
    objLookup (objs ++ [o]) k = if o.objId = k then some o else none := by
  induction objs with
  | nil => simp [objLookup]
  | cons a rest ih =>
      by_cases ha : a.objId = k
      · simp [objLookup, ha] at h
      · simp only [objLookup, ha, if_neg ha, List.cons_append] at h ⊢
        exact ih h

theorem procUpdate_objects_append_none {objs : List BObj} {o1 o2 : BObj}
    (h : objLookup objs o2.objId = none) (he : o1.objId = o2.objId) :
    (objs ++ [o1]).map (fun o => if o.objId = o2.objId then o2 else o) = objs ++ [o2] := by
  induction objs with
  | nil => simp [he]
  | cons a rest ih =>
      by_cases ha : a.objId = o2.objId
      · simp [objLookup, ha] at h
      · simp only [objLookup, ha, if_neg ha] at h
        simpa [ha] using ih h

/-! ## Claim C3 -/

/-- Claim C3 (refuted by the code; the registration claim is the clear
intent): cmd_set_context_mgr begins with "if (!context_mgr_obj) return
-EBUSY;", and context_mgr_obj is NULL at module load, so the first
BINDER_SET_CONTEXT_MGR call of any caller returns -EBUSY, not 0, and leaves
the context-manager globals untouched; the function can therefore never
succeed. -/
theorem cmd_set_context_mgr_first_call_EBUSY :
    ∀ (proc : Proc) (euid : Nat),
      (cmd_set_context_mgr initialCtxState proc euid).1 = -EBUSY ∧
      (cmd_set_context_mgr initialCtxState proc euid).1 ≠ 0 ∧
      (cmd_set_context_mgr initialCtxState proc euid).2 = (initialCtxState, proc) := by
  intro proc euid
  refine ⟨rfl, ?_, rfl⟩
  have h : (cmd_set_context_mgr initialCtxState proc euid).1 = -EBUSY := rfl
  rw [h]
  decide

/-! ## Claim C4 -/

/-- Claim C4 (refuted by the code; the claim is the clear intent, witness
the goto label failed_load on the success branch): bcmd_write_transaction
tests "if (!bcmd_write_msg_buf(...))", and bcmd_write_msg_buf returns 0 on
success, so a transaction whose payload copy and descriptor translation
both succeed is freed with last_error = BR_FAILED_REPLY and nothing is
enqueued, while one whose payload copy fails is enqueued on the destination
and acknowledged.  Evaluated here on a 16-byte payload addressed at an
owned object. -/
theorem bcmd_write_transaction_inverted_payload_check :
    ((bcmd_write_transaction allOpen none exProcA exThread exTd16 BC_TRANSACTION 1000).sends = [] ∧
     (bcmd_write_transaction allOpen none exProcA exThread exTd16 BC_TRANSACTION 1000).r = -1 ∧
     (bcmd_write_transaction allOpen none exProcA exThread exTd16
        BC_TRANSACTION 1000).thread.lastError = BR_FAILED_REPLY) ∧
    ((bcmd_write_transaction allOpen none exProcA exThread
        { exTd16 with copyOk := false } BC_TRANSACTION 1000).r = 0 ∧
     (bcmd_write_transaction allOpen none exProcA exThread
        { exTd16 with copyOk := false } BC_TRANSACTION 1000).sends.map Prod.fst = [10, 11]) := by
  decide

/-! ## Claim C9 -/

/-- A process with room for two loopers and none running. -/
def exProc9 : Proc :=
  { queue := 10, pid := 1, objects := [], maxThreads := 2, numLoopers := 0, pendingLoopers := 0 }

/-- Claim C9 as stated is false on the code at these inputs: with
max_threads = 2 and queue size 3, a spawn check emits BR_SPAWN_LOOPER and
increments pending_loopers, and the immediately following spawn check (no
BC_REGISTER_LOOPER in between) emits again; and with max_threads = 0 and
queue size 2 the check writes nothing yet still reports sizeof(u32) bytes,
so the reported count differs from the bytes written. -/
theorem spawn_gate_claim_counterexample :
    (bcmd_spawn_on_busy exProc9 3 64).wrote = true ∧
    (bcmd_spawn_on_busy exProc9 3 64).proc.pendingLoopers = 1 ∧
    (bcmd_spawn_on_busy (bcmd_spawn_on_busy exProc9 3 64).proc 3 64).wrote = true ∧
    (bcmd_spawn_on_busy { exProc9 with maxThreads := 0 } 2 64).wrote = false ∧
    (bcmd_spawn_on_busy { exProc9 with maxThreads := 0 } 2 64).bytes = sizeofU32 := by
  decide

/-- Claim C9 (amended): BR_SPAWN_LOOPER is written iff there is room for a
command word, the process queue size exceeds 1 and num_loopers +
pending_loopers < max_threads; writing it increments pending_loopers by
exactly one (so a later spawn check can fire again while the sum stays
below max_threads); BC_REGISTER_LOOPER from a non-active thread decrements
pending_loopers; and the spawn check reports sizeof(u32) consumed bytes
whenever the queue size exceeds 1 and there is room, even when it wrote
nothing. -/
theorem spawn_gate_amended (proc : Proc) (qsize size : Nat) :
    ((bcmd_spawn_on_busy proc qsize size).wrote = true ↔
      sizeofU32 ≤ size ∧ 1 < qsize ∧
        proc.numLoopers + proc.pendingLoopers < proc.maxThreads) ∧
    ((bcmd_spawn_on_busy proc qsize size).wrote = true →
      (bcmd_spawn_on_busy proc qsize size).proc =
        { proc with pendingLoopers := proc.pendingLoopers + 1 }) ∧
    ((bcmd_spawn_on_busy proc qsize size).wrote = false →
      (bcmd_spawn_on_busy proc qsize size).proc = proc) ∧
    ((bcmd_spawn_on_busy proc qsize size).bytes =
      if sizeofU32 ≤ size ∧ 1 < qsize then sizeofU32 else 0) ∧
    (∀ thread : Thread, thread.state &&& BINDER_LOOPER_STATE_ACTIVE = 0 →
      (bcmd_write_looper proc thread BC_REGISTER_LOOPER).proc =
        { proc with pendingLoopers := proc.pendingLoopers - 1 }) := by
  have h5 : ∀ thread : Thread, thread.state &&& BINDER_LOOPER_STATE_ACTIVE = 0 →
      (bcmd_write_looper proc thread BC_REGISTER_LOOPER).proc =
        { proc with pendingLoopers := proc.pendingLoopers - 1 } := by
    intro t ht
    simp [bcmd_write_looper, BC_REGISTER_LOOPER, BC_ENTER_LOOPER, BC_EXIT_LOOPER, ht]
  unfold bcmd_spawn_on_busy
  by_cases h1 : size < sizeofU32
  · have h1' : ¬ sizeofU32 ≤ size := by omega
    refine ⟨?_, ?_, ?_, ?_, h5⟩ <;> simp [h1, h1']
  · have h1' : sizeofU32 ≤ size := by omega
    by_cases h2 : qsize > 1
    · by_cases h3 : proc.numLoopers + proc.pendingLoopers < proc.maxThreads
      · refine ⟨?_, ?_, ?_, ?_, h5⟩ <;> simp [h1, h1', h2, h3]
      · refine ⟨?_, ?_, ?_, ?_, h5⟩ <;> simp [h1, h1', h2, h3]
    · have h2' : ¬ (1 < qsize) := h2
      refine ⟨?_, ?_, ?_, ?_, h5⟩ <;> simp [h1, h2']

/-- Witness for the amended spawn-gate theorem at concrete inputs. -/
theorem spawn_gate_amended_witness :
    (bcmd_spawn_on_busy exProc9 3 64).proc =
      { exProc9 with pendingLoopers := exProc9.pendingLoopers + 1 } ∧
    (bcmd_write_looper exProc9 exThread BC_REGISTER_LOOPER).proc =
      { exProc9 with pendingLoopers := exProc9.pendingLoopers - 1 } :=
  ⟨(spawn_gate_amended exProc9 3 64).2.1 (by decide),
   (spawn_gate_amended exProc9 3 64).2.2.2.2 exThread (by decide)⟩

/-! ## Claim C5 -/

/-- The zero-payload variant of exTd16. -/
def exTd0 : TData := { exTd16 with dataSize := 0 }

/-- The BR_TRANSACTION_COMPLETE ack that bcmd_write_transaction enqueues on
the issuing thread's inbox for exTd0. -/
def exComplete : Msg :=
  { type := BR_TRANSACTION_COMPLETE, objId := ⟨10, 5⟩, code := 1, flags := 0,
    senderPid := 0, senderEuid := 0, cookie := 0, replyQueue := none,
    dataSize := 0, offsetsSize := 0, descs := [] }

/-- Claim C5 (refuted by the code on its second half; the claim is the
clear intent, witness the source comment "Write TR-COMPLETE message back to
the caller as per the protocol"): a successful zero-payload BC_TRANSACTION
enqueues the transaction on the destination owner queue and a zero-payload
BR_TRANSACTION_COMPLETE on the issuing thread's own inbox, but the dispatch
switch of binder_thread_read has no case for BR_TRANSACTION_COMPLETE, so
the thread's next read hits the default branch, frees the ack and fails
with -EFAULT instead of delivering it. -/
theorem transaction_complete_read_EFAULT :
    (bcmd_write_transaction allOpen none exProcA exThread exTd0 BC_TRANSACTION 1000).r = 0 ∧
    (bcmd_write_transaction allOpen none exProcA exThread exTd0
        BC_TRANSACTION 1000).sends.map Prod.fst = [10, 11] ∧
    ((bcmd_write_transaction allOpen none exProcA exThread exTd0
        BC_TRANSACTION 1000).sends.get? 1).map Prod.snd = some exComplete ∧
    exComplete.type = BR_TRANSACTION_COMPLETE ∧
    (binder_thread_read
        ⟨(bcmd_write_transaction allOpen none exProcA exThread exTd0 BC_TRANSACTION 1000).proc,
         (bcmd_write_transaction allOpen none exProcA exThread exTd0 BC_TRANSACTION 1000).thread,
         [exComplete], []⟩ 64).r = -EFAULT := by
  decide

/-! ## Claim C6 -/

theorem bcmd_read_transaction_lastError (proc : Proc) (thread : Thread) (msg : Msg)
    (size : Nat) :
    (bcmd_read_transaction proc thread msg size).thread.lastError = thread.lastError := by
  unfold bcmd_read_transaction
  dsimp only []
  repeat' split
  all_goals rfl

theorem bcmd_read_notifier_lastError (proc : Proc) (thread : Thread) (msg : Msg)
    (size : Nat) :
    (bcmd_read_notifier proc thread msg size).thread.lastError = thread.lastError := by
  unfold bcmd_read_notifier
  dsimp only []
  repeat' split
  all_goals rfl

theorem bcmd_read_dead_binder_lastError (proc : Proc) (thread : Thread) (msg : Msg)
    (size : Nat) :
    (bcmd_read_dead_binder proc thread msg size).thread.lastError = thread.lastError := by
  unfold bcmd_read_dead_binder
  split <;> rfl

theorem read_dispatch_lastError (proc : Proc) (thread : Thread) (msg : Msg) (size : Nat) :
    (read_dispatch proc thread msg size).thread.lastError = thread.lastError := by
  unfold read_dispatch
  split
  · exact bcmd_read_transaction_lastError proc thread msg size
  · split
    · exact bcmd_read_notifier_lastError proc thread msg size
    · exact bcmd_read_dead_binder_lastError proc thread msg size

theorem read_loop_lastError (fuel : Nat) :
    ∀ (st : RState) (size : Nat),
      (read_loop fuel st size).st.thread.lastError = st.thread.lastError := by
  induction fuel with
  | zero => intro st size; rfl
  | succ n ih =>
      intro st size
      unfold read_loop
      dsimp only []
      repeat' split
      all_goals simp [ih, read_dispatch_lastError]

theorem binder_thread_read_lastError (st : RState) (size : Nat) :
    (binder_thread_read st size).st.thread.lastError = st.thread.lastError := by
  unfold binder_thread_read
  dsimp only []
  split <;> simp [read_loop_lastError]

/-- A bare dead-binder message. -/
def exDead : Msg :=
  { type := BR_DEAD_BINDER, objId := ⟨0, 0⟩, code := 0, flags := 0,
    senderPid := 0, senderEuid := 0, cookie := 0, replyQueue := none,
    dataSize := 0, offsetsSize := 0, descs := [] }

/-- Claim C6 (refuted by the code on its delivery half; the claim is the
clear intent, witness the empty "if (err) { /* flag the event, so next
binder_thread_read would pick it up */ }" block): write-path failures do
latch thread->last_error with the most recent in-band code (here a BC_REPLY
with no incoming transaction latches BR_FAILED_REPLY), but no read path
ever consults, delivers or clears the latch: binder_thread_read leaves
last_error unchanged on every state and input, and a subsequent read
delivers only the queued messages. -/
theorem last_error_latched_but_never_delivered :
    (∀ (st : RState) (size : Nat),
      (binder_thread_read st size).st.thread.lastError = st.thread.lastError) ∧
    (bcmd_write_transaction allOpen none exProcA exThread exTd0 BC_REPLY 1000).r = -1 ∧
    (bcmd_write_transaction allOpen none exProcA exThread exTd0
        BC_REPLY 1000).thread.lastError = BR_FAILED_REPLY ∧
    (binder_thread_read
        ⟨exProcA,
         (bcmd_write_transaction allOpen none exProcA exThread exTd0 BC_REPLY 1000).thread,
         [exDead], []⟩ sizeofU32).r = sizeofU32 ∧
    (binder_thread_read
        ⟨exProcA,
         (bcmd_write_transaction allOpen none exProcA exThread exTd0 BC_REPLY 1000).thread,
         [exDead], []⟩ sizeofU32).outs = [.deadBinder] ∧
    (binder_thread_read
        ⟨exProcA,
         (bcmd_write_transaction allOpen none exProcA exThread exTd0 BC_REPLY 1000).thread,
         [exDead], []⟩ sizeofU32).st.thread.lastError = BR_FAILED_REPLY := by
  refine ⟨binder_thread_read_lastError, ?_⟩
  decide


/-! ## Claim C1 -/

theorem write_flat_obj_owner (A : Proc) (b c ty : Nat)
    (hty : ty = BINDER_TYPE_BINDER ∨ ty = BINDER_TYPE_WEAK_BINDER)
    (hown : binder_find_obj A b = none ∨
      ∃ o, binder_find_obj A b = some o ∧ o.realCookie = c) :
    ∃ A1 o, bcmd_write_flat_obj A ⟨ty, b, c⟩ =
        .ok (A1, ⟨(if ty = BINDER_TYPE_BINDER then BINDER_TYPE_HANDLE
                   else BINDER_TYPE_WEAK_HANDLE), b, A.queue⟩) ∧
      A1.queue = A.queue ∧
      objLookup A1.objects ⟨A.queue, b⟩ = some o ∧ o.realCookie = c := by
  rcases hown with hnone | ⟨o, hfind, hc⟩
  · -- first send: the object is interned with real_cookie := c
    have hnone' : objLookup A.objects ⟨A.queue, b⟩ = none := hnone
    refine ⟨{ A with objects := A.objects ++ [⟨⟨A.queue, b⟩, c, []⟩] },
      ⟨⟨A.queue, b⟩, c, []⟩, ?_, rfl, ?_, rfl⟩
    · have hupd := @procUpdate_objects_append_none A.objects
        ⟨⟨A.queue, b⟩, 0, []⟩ ⟨⟨A.queue, b⟩, c, []⟩ hnone' rfl
      simp only [bcmd_write_flat_obj, if_pos hty, binder_find_obj,
        binder_find_obj_any, binder_new_obj, binder_new_obj_any, hnone',
        procUpdateObj]
      simp [hupd]
    · rw [objLookup_append_none _ hnone']
      simp
  · -- already owned: the stored real_cookie is c
    have ho : o.objId = ⟨A.queue, b⟩ := objLookup_some hfind
    refine ⟨A, o, ?_, rfl, hfind, hc⟩
    simp only [bcmd_write_flat_obj, if_pos hty, binder_find_obj,
      binder_find_obj_any] at hfind ⊢
    simp [hfind, ho]

theorem read_flat_obj_nonowner (B : Proc) (d : FlatObj)
    (hty : d.type = BINDER_TYPE_HANDLE ∨ d.type = BINDER_TYPE_WEAK_HANDLE)
    (hq : d.cookie ≠ B.queue) :
    ∃ B1, bcmd_read_flat_obj B d = .ok (B1, d) ∧
      ∃ o, objLookup B1.objects ⟨d.cookie, d.binder⟩ = some o := by
  cases hB : objLookup B.objects ⟨d.cookie, d.binder⟩ with
  | some ob =>
      refine ⟨B, ?_, ob, hB⟩
      simp [bcmd_read_flat_obj, if_pos hty, binder_find_obj_any, hB, hq]
  | none =>
      refine ⟨{ B with objects := B.objects ++ [⟨⟨d.cookie, d.binder⟩, 0, []⟩] }, ?_, ?_⟩
      · simp only [bcmd_read_flat_obj, if_pos hty, binder_find_obj_any,
          binder_new_obj_any, hB]
      · refine ⟨⟨⟨d.cookie, d.binder⟩, 0, []⟩, ?_⟩
        rw [objLookup_append_none _ hB]
        simp

theorem write_flat_obj_handle (P : Proc) (d : FlatObj)
    (hty : d.type = BINDER_TYPE_HANDLE ∨ d.type = BINDER_TYPE_WEAK_HANDLE)
    (hfound : ∃ o, objLookup P.objects ⟨d.cookie, d.binder⟩ = some o) :
    bcmd_write_flat_obj P d = .ok (P, d) := by
  obtain ⟨o, ho⟩ := hfound
  have hnotb : ¬ (d.type = BINDER_TYPE_BINDER ∨ d.type = BINDER_TYPE_WEAK_BINDER) := by
    rcases hty with h | h <;> rw [h] <;> decide
  simp only [bcmd_write_flat_obj, if_neg hnotb, if_pos hty, binder_find_obj_any, ho]

theorem read_flat_obj_owner_restore (A : Proc) (d : FlatObj) (o : BObj)
    (hty : d.type = BINDER_TYPE_HANDLE ∨ d.type = BINDER_TYPE_WEAK_HANDLE)
    (hq : d.cookie = A.queue)
    (hfind : objLookup A.objects ⟨d.cookie, d.binder⟩ = some o) :
    bcmd_read_flat_obj A d = .ok (A,
      ⟨(if d.type = BINDER_TYPE_HANDLE then BINDER_TYPE_BINDER
        else BINDER_TYPE_WEAK_BINDER), d.binder, o.realCookie⟩) := by
  have hfind' : objLookup A.objects ⟨A.queue, d.binder⟩ = some o := by
    rw [← hq]; exact hfind
  simp [bcmd_read_flat_obj, if_pos hty, binder_find_obj_any, hfind', hq]

/-- Claim C1: owner round-trip of object descriptors.  When process A owns
binder pointer b with cookie c (either the registry already stores
real_cookie c for it, or the descriptor first interned carries c), sending
the descriptor type ty in {BINDER, WEAK_BINDER} through write-translation at
A, read-translation at a distinct process B, write-translation back at B and
read-translation at A yields exactly the descriptor (ty, b, c): the type is
restored to BINDER (respectively WEAK_BINDER), the binder field is b, and
the cookie field is the real_cookie A stored.  In between, the descriptor
travels as a handle whose cookie slot carries the queue identity of A. -/
theorem owner_round_trip (A B : Proc) (b c ty : Nat)
    (hq : A.queue ≠ B.queue)
    (hty : ty = BINDER_TYPE_BINDER ∨ ty = BINDER_TYPE_WEAK_BINDER)
    (hown : binder_find_obj A b = none ∨
      ∃ o, binder_find_obj A b = some o ∧ o.realCookie = c) :
    ∃ A1 B1 d1,
      bcmd_write_flat_obj A ⟨ty, b, c⟩ = .ok (A1, d1) ∧
      bcmd_read_flat_obj B d1 = .ok (B1, d1) ∧
      bcmd_write_flat_obj B1 d1 = .ok (B1, d1) ∧
      bcmd_read_flat_obj A1 d1 = .ok (A1, ⟨ty, b, c⟩) ∧
      d1 = ⟨(if ty = BINDER_TYPE_BINDER then BINDER_TYPE_HANDLE
             else BINDER_TYPE_WEAK_HANDLE), b, A.queue⟩ := by
  obtain ⟨A1, o, hw, hA1q, hA1find, hoc⟩ := write_flat_obj_owner A b c ty hty hown
  set d1 : FlatObj :=
    ⟨(if ty = BINDER_TYPE_BINDER then BINDER_TYPE_HANDLE
      else BINDER_TYPE_WEAK_HANDLE), b, A.queue⟩ with hd1
  have hd1ty : d1.type = BINDER_TYPE_HANDLE ∨ d1.type = BINDER_TYPE_WEAK_HANDLE := by
    rcases hty with h | h
    · left; rw [hd1, h]; rfl
    · right; rw [hd1, h]; rfl
  have hd1c : d1.cookie = A.queue := rfl
  have hd1b : d1.binder = b := rfl
  obtain ⟨B1, hr, hBfound⟩ := read_flat_obj_nonowner B d1 hd1ty (by rw [hd1c]; exact hq)
  have hw2 := write_flat_obj_handle B1 d1 hd1ty hBfound
  have hr2 := read_flat_obj_owner_restore A1 d1 o hd1ty (by rw [hd1c, hA1q])
    (by rw [hd1c, hd1b]; exact hA1find)
  refine ⟨A1, B1, d1, hw, hr, hw2, ?_, rfl⟩
  rw [hr2, hd1b, hoc]
  rcases hty with h | h <;>
    simp [hd1, h, BINDER_TYPE_BINDER, BINDER_TYPE_WEAK_BINDER,
      BINDER_TYPE_HANDLE, BINDER_TYPE_WEAK_HANDLE]

/-- Process with queue identity 1 and empty registry, for the round-trip
witness. -/
def exA1 : Proc :=
  { queue := 1, pid := 1, objects := [], maxThreads := 0, numLoopers := 0, pendingLoopers := 0 }

/-- Process with queue identity 2 and empty registry, for the round-trip
witness. -/
def exB1 : Proc :=
  { queue := 2, pid := 2, objects := [], maxThreads := 0, numLoopers := 0, pendingLoopers := 0 }

/-- Witness for the owner round-trip: A (queue 1) sends binder 5 with
cookie 7 as a strong BINDER descriptor to B (queue 2) and back. -/
theorem owner_round_trip_witness :
    exA1.queue ≠ exB1.queue ∧
    binder_find_obj exA1 5 = none ∧
    ∃ A1 B1 d1,
      bcmd_write_flat_obj exA1 ⟨BINDER_TYPE_BINDER, 5, 7⟩ = .ok (A1, d1) ∧
      bcmd_read_flat_obj exB1 d1 = .ok (B1, d1) ∧
      bcmd_write_flat_obj B1 d1 = .ok (B1, d1) ∧
      bcmd_read_flat_obj A1 d1 = .ok (A1, ⟨BINDER_TYPE_BINDER, 5, 7⟩) ∧
      d1 = ⟨(if BINDER_TYPE_BINDER = BINDER_TYPE_BINDER then BINDER_TYPE_HANDLE
             else BINDER_TYPE_WEAK_HANDLE), 5, exA1.queue⟩ :=
  ⟨by decide, by decide,
    owner_round_trip exA1 exB1 5 7 BINDER_TYPE_BINDER (by decide)
      (Or.inl rfl) (Or.inl (by decide))⟩

/-! ## Claim C2 -/

theorem fire_notifier_steps_all_open (openQ : Ptr → Bool)
    (hopen : ∀ q, openQ q = true) :
    ∀ l : List Notifier,
      (fire_notifier_steps openQ l).map (fun s => s.2) =
        l.map (fun n => (n.notifyQueue, n.cookie)) := by
  intro l
  induction l with
  | nil => rfl
  | cons n rest ih =>
      simp [fire_notifier_steps, hopen n.notifyQueue, ih]

theorem fire_notifier_steps_detached (openQ : Ptr → Bool)
    (hopen : ∀ q, openQ q = true) :
    ∀ (l : List Notifier) (i : Nat) (h : i < l.length),
      (fire_notifier_steps openQ l).get? i =
        some (l.drop (i + 1), (l.get ⟨i, h⟩).notifyQueue, (l.get ⟨i, h⟩).cookie) := by
  intro l
  induction l with
  | nil => intro i h; simp at h
  | cons n rest ih =>
      intro i h
      cases i with
      | zero => simp [fire_notifier_steps, hopen n.notifyQueue]
      | succ j =>
          have hj : j < rest.length := by simpa using h
          have hrec := ih j hj
          simp [fire_notifier_steps, hopen n.notifyQueue] at hrec ⊢
          exact hrec

/-- Claim C2: death fan-out at process teardown.  With every notifier queue
accepting the enqueue and the spec invariant that reference entries carry no
notifiers (the walk BUG_ONs otherwise), the object-table walk of
binder_free_proc enqueues, for every owned entry and every registered
notifier, exactly one dead-binder message carrying that notifier's cookie on
that notifier's queue, in registration order, and reference entries
contribute no message; moreover each notifier is detached from the list
before its enqueue: at the i-th enqueue the remaining list is the suffix
after position i. -/
theorem death_fan_out (procQueue : Ptr) (objs : List BObj) (openQ : Ptr → Bool)
    (hopen : ∀ q, openQ q = true)
    (hrefs : ∀ o ∈ objs, o.objId.owner ≠ procQueue → o.notifiers = []) :
    binder_free_proc_objs procQueue openQ objs =
      (objs.filter (fun o => o.objId.owner == procQueue)).flatMap
        (fun o => o.notifiers.map (fun n => (n.notifyQueue, n.cookie))) ∧
    ∀ (l : List Notifier) (i : Nat) (h : i < l.length),
      (fire_notifier_steps openQ l).get? i =
        some (l.drop (i + 1), (l.get ⟨i, h⟩).notifyQueue, (l.get ⟨i, h⟩).cookie) := by
  refine ⟨?_, fire_notifier_steps_detached openQ hopen⟩
  induction objs with
  | nil => rfl
  | cons obj rest ih =>
      have ihr := ih (fun o ho => hrefs o (List.mem_cons_of_mem _ ho))
      by_cases hown : obj.objId.owner = procQueue
      · simp [binder_free_proc_objs, hown, List.filter_cons, ihr,
          fire_notifier_steps_all_open openQ hopen]
      · simp [binder_free_proc_objs, hown, List.filter_cons, ihr]

/-- Owned object (queue 10) with two notifiers plus a reference entry, for
the fan-out witness. -/
def exObjs : List BObj :=
  [⟨⟨10, 5⟩, 7, [⟨BINDER_EVT_OBJ_DEAD, 1, 20⟩, ⟨BINDER_EVT_OBJ_DEAD, 2, 21⟩]⟩,
   ⟨⟨99, 6⟩, 0, []⟩]

/-- Witness for the death fan-out at a concrete teardown: the owned entry's
two notifiers each get one message with their cookie, the reference none. -/
theorem death_fan_out_witness :
    binder_free_proc_objs 10 (fun _ => true) exObjs = [(20, 1), (21, 2)] ∧
    (fire_notifier_steps (fun _ => true)
        [⟨BINDER_EVT_OBJ_DEAD, 1, 20⟩, ⟨BINDER_EVT_OBJ_DEAD, 2, 21⟩]).get? 0 =
      some ([⟨BINDER_EVT_OBJ_DEAD, 2, 21⟩], 20, 1) := by
  have h := death_fan_out 10 exObjs (fun _ => true) (fun q => rfl) (by decide)
  refine ⟨?_, ?_⟩
  · rw [h.1]; decide
  · rw [h.2 [⟨BINDER_EVT_OBJ_DEAD, 1, 20⟩, ⟨BINDER_EVT_OBJ_DEAD, 2, 21⟩] 0 (by decide)]
    rfl

/-! ## Claim C7 -/

theorem useThread_iff (st : RState) :
    ((!st.inbox.isEmpty || decide (0 < st.thread.pendingReplies)) = true) ↔
      (st.inbox ≠ [] ∨ 0 < st.thread.pendingReplies) := by
  simp [List.isEmpty_iff]

theorem read_loop_evs_pref (fuel : Nat) :
    ∀ (st : RState) (size : Nat) (ev : Ev), ev ∈ (read_loop fuel st size).evs →
      (ev.fromThread = true ↔
        (ev.pre.inbox ≠ [] ∨ 0 < ev.pre.thread.pendingReplies)) := by
  induction fuel with
  | zero => intro st size ev h; simp [read_loop] at h
  | succ n ih =>
      intro st size ev h
      unfold read_loop at h
      dsimp only [] at h
      repeat' split at h
      all_goals dsimp only [] at h
      all_goals simp only [List.mem_cons, List.mem_singleton, List.not_mem_nil,
        or_false] at h
      all_goals first
        | exact h.elim
        | (cases h with
           | inl he => exact he ▸ useThread_iff st
           | inr hm => exact ih _ _ _ hm)
        | exact h ▸ useThread_iff st

/-- Claim C7: dual-queue read preference.  Every dequeue event of
binder_thread_read takes the message from the thread inbox exactly when, at
that iteration, the inbox is non-empty or the thread's pending_replies
counter is positive; otherwise it takes it from the process queue.  The
choice is recorded against the state of the very iteration it is made in,
so it is re-evaluated independently each time around the loop. -/
theorem dual_queue_read_preference (st : RState) (size : Nat) :
    ∀ ev ∈ (binder_thread_read st size).evs,
      (ev.fromThread = true ↔
        (ev.pre.inbox ≠ [] ∨ 0 < ev.pre.thread.pendingReplies)) := by
  intro ev h
  unfold binder_thread_read at h
  dsimp only [] at h
  split at h <;> exact read_loop_evs_pref _ _ _ _ h

/-- A read state holding one dead-binder message in the thread inbox and
one in the process queue: the first iteration must use the inbox, the
second the process queue. -/
def exSt7 : RState := ⟨exProcA, exThread, [exDead], [exDead]⟩

/-- The same state after the inbox message has been consumed. -/
def exSt7b : RState := ⟨exProcA, exThread, [], [exDead]⟩

/-- Witness for the dual-queue preference: in the run from exSt7 the first
event picks the thread inbox (non-empty inbox) and the second picks the
process queue (inbox drained, no pending replies). -/
theorem dual_queue_read_preference_witness :
    ((⟨true, exSt7⟩ : Ev).fromThread = true ↔
      (exSt7.inbox ≠ [] ∨ 0 < exSt7.thread.pendingReplies)) ∧
    ((⟨false, exSt7b⟩ : Ev).fromThread = true ↔
      (exSt7b.inbox ≠ [] ∨ 0 < exSt7b.thread.pendingReplies)) :=
  ⟨dual_queue_read_preference exSt7 20 ⟨true, exSt7⟩ (by decide),
   dual_queue_read_preference exSt7 20 ⟨false, exSt7b⟩ (by decide)⟩

/-! ## Claim C8 -/

theorem spawn_idle (proc : Proc) (qsize size : Nat) (h : qsize ≤ 1) :
    bcmd_spawn_on_busy proc qsize size = ⟨0, false, proc⟩ := by
  unfold bcmd_spawn_on_busy
  by_cases h4 : size < sizeofU32
  · rw [if_pos h4]
  · rw [if_neg h4, if_neg (by omega : ¬ qsize > 1)]

theorem read_dispatch_enospc (pr : Proc) (th : Thread) (m : Msg) (size : Nat)
    (hty : m.type = BC_TRANSACTION ∨ m.type = BC_REPLY)
    (hbig : size < MSG_BUF_ALIGN (sizeofU32 + sizeofTdata) + m.dataSize) :
    read_dispatch pr th m size = ⟨-ENOSPC, pr, th, false, []⟩ := by
  unfold read_dispatch
  rw [if_pos hty]
  unfold bcmd_read_transaction
  dsimp only []
  rw [if_pos (by omega : MSG_BUF_ALIGN (sizeofU32 + sizeofTdata) + m.dataSize > size)]

theorem read_loop_enospc_thread (fuel : Nat) (pr : Proc) (th : Thread)
    (m : Msg) (rest procQ : List Msg) (size : Nat)
    (hty : m.type = BC_TRANSACTION ∨ m.type = BC_REPLY)
    (h4 : sizeofU32 ≤ size)
    (hbig : size < MSG_BUF_ALIGN (sizeofU32 + sizeofTdata) + m.dataSize) :
    read_loop (fuel + 1) ⟨pr, th, m :: rest, procQ⟩ size =
      ⟨0, ⟨pr, th, m :: rest, procQ⟩, [], [⟨true, ⟨pr, th, m :: rest, procQ⟩⟩]⟩ := by
  have htyBig : m.type = BC_TRANSACTION ∨ m.type = BC_REPLY ∨
      m.type = BC_REQUEST_DEATH_NOTIFICATION ∨ m.type = BC_CLEAR_DEATH_NOTIFICATION ∨
      m.type = BR_DEAD_BINDER := by
    rcases hty with h | h
    · exact Or.inl h
    · exact Or.inr (Or.inl h)
  unfold read_loop
  rw [if_neg (by omega : ¬ size < sizeofU32)]
  dsimp only []
  simp only [List.isEmpty_cons, Bool.not_false, Bool.true_or, if_true]
  rw [if_pos htyBig, read_dispatch_enospc pr th m size hty hbig]
  simp [ENOSPC]

theorem read_loop_enospc_proc (fuel : Nat) (pr : Proc) (th : Thread)
    (m : Msg) (rest : List Msg) (size : Nat)
    (hp : th.pendingReplies = 0)
    (hty : m.type = BC_TRANSACTION ∨ m.type = BC_REPLY)
    (h4 : sizeofU32 ≤ size)
    (hbig : size < MSG_BUF_ALIGN (sizeofU32 + sizeofTdata) + m.dataSize) :
    read_loop (fuel + 1) ⟨pr, th, [], m :: rest⟩ size =
      ⟨0, ⟨pr, th, [], m :: rest⟩, [], [⟨false, ⟨pr, th, [], m :: rest⟩⟩]⟩ := by
  have htyBig : m.type = BC_TRANSACTION ∨ m.type = BC_REPLY ∨
      m.type = BC_REQUEST_DEATH_NOTIFICATION ∨ m.type = BC_CLEAR_DEATH_NOTIFICATION ∨
      m.type = BR_DEAD_BINDER := by
    rcases hty with h | h
    · exact Or.inl h
    · exact Or.inr (Or.inl h)
  unfold read_loop
  rw [if_neg (by omega : ¬ size < sizeofU32)]
  dsimp only []
  simp only [hp, List.isEmpty_nil, Bool.not_true, Bool.false_or,
    decide_eq_true_eq, lt_self_iff_false, if_false]
  rw [if_pos htyBig, read_dispatch_enospc pr th m size hty hbig]
  simp [ENOSPC]

/-- A small one-way transaction: encoded size 48 + 8 = 56 bytes. -/
def exM1 : Msg :=
  { type := BC_TRANSACTION, objId := ⟨0, 0⟩, code := 3, flags := TF_ONE_WAY,
    senderPid := 0, senderEuid := 0, cookie := 0, replyQueue := none,
    dataSize := 8, offsetsSize := 0, descs := [] }

/-- A transaction too large for any small read buffer. -/
def exM2 : Msg :=
  { type := BC_TRANSACTION, objId := ⟨0, 0⟩, code := 4, flags := 0,
    senderPid := 0, senderEuid := 0, cookie := 0, replyQueue := none,
    dataSize := 1000, offsetsSize := 0, descs := [] }

/-- Claim C8: read-buffer tight fit.  When the dequeued transaction's
encoded size (48-byte header slot plus data) exceeds the remaining read
buffer, the handler reports ENOSPC before consuming anything, the message
is re-inserted at the head of exactly the queue it was dequeued from (the
thread inbox in the first part, the process queue in the second), the loop
stops, and binder_thread_read returns the bytes produced so far — zero in
the two general parts, and 56 in the concrete run where a fitting one-way
transaction precedes the oversized one — never an error. -/
theorem read_buffer_tight_fit :
    (∀ (pr : Proc) (th : Thread) (m : Msg) (rest procQ : List Msg) (size : Nat),
      procQ.length ≤ 1 →
      (m.type = BC_TRANSACTION ∨ m.type = BC_REPLY) →
      sizeofU32 ≤ size →
      size < MSG_BUF_ALIGN (sizeofU32 + sizeofTdata) + m.dataSize →
      binder_thread_read ⟨pr, th, m :: rest, procQ⟩ size =
        ⟨0, ⟨pr, th, m :: rest, procQ⟩, [], [⟨true, ⟨pr, th, m :: rest, procQ⟩⟩]⟩) ∧
    (∀ (pr : Proc) (th : Thread) (m : Msg) (size : Nat),
      th.pendingReplies = 0 →
      (m.type = BC_TRANSACTION ∨ m.type = BC_REPLY) →
      sizeofU32 ≤ size →
      size < MSG_BUF_ALIGN (sizeofU32 + sizeofTdata) + m.dataSize →
      binder_thread_read ⟨pr, th, [], [m]⟩ size =
        ⟨0, ⟨pr, th, [], [m]⟩, [], [⟨false, ⟨pr, th, [], [m]⟩⟩]⟩) ∧
    (binder_thread_read ⟨exProcA, exThread, [exM1, exM2], []⟩ 60).r = 56 ∧
    (binder_thread_read ⟨exProcA, exThread, [exM1, exM2], []⟩ 60).st =
      ⟨exProcA, exThread, [exM2], []⟩ ∧
    (binder_thread_read ⟨exProcA, exThread, [exM1, exM2], []⟩ 60).outs =
      [.tr BR_TRANSACTION exM1] := by
  refine ⟨?_, ?_, ?_⟩
  · intro pr th m rest procQ size hlen hty h4 hbig
    unfold binder_thread_read
    dsimp only []
    rw [spawn_idle pr procQ.length size hlen]
    dsimp only []
    rw [Nat.sub_zero,
      read_loop_enospc_thread ((m :: rest).length + procQ.length) pr th m rest procQ
        size hty h4 hbig]
    simp
  · intro pr th m size hp hty h4 hbig
    unfold binder_thread_read
    dsimp only []
    rw [spawn_idle pr (List.length [m]) size (by simp)]
    dsimp only []
    rw [Nat.sub_zero,
      read_loop_enospc_proc (List.length ([] : List Msg) + List.length [m]) pr th m []
        size hp hty h4 hbig]
    simp
  · refine ⟨by decide, by decide, by decide⟩

/-- Witness for the tight-fit theorem: a 60-byte buffer cannot take exM2
from the thread inbox, nor from the process queue. -/
theorem read_buffer_tight_fit_witness :
    binder_thread_read ⟨exProcA, exThread, [exM2], []⟩ 60 =
      ⟨0, ⟨exProcA, exThread, [exM2], []⟩, [], [⟨true, ⟨exProcA, exThread, [exM2], []⟩⟩]⟩ ∧
    binder_thread_read ⟨exProcA, exThread, [], [exM2]⟩ 60 =
      ⟨0, ⟨exProcA, exThread, [], [exM2]⟩, [], [⟨false, ⟨exProcA, exThread, [], [exM2]⟩⟩]⟩ :=
  ⟨read_buffer_tight_fit.1 exProcA exThread exM2 [] [] 60 (by decide) (by decide)
      (by decide) (by decide),
   read_buffer_tight_fit.2.1 exProcA exThread exM2 60 (by decide) (by decide)
      (by decide) (by decide)⟩

/-! ## Claim C10 -/

theorem thread_write_loop_fetched (openQ : Ptr → Bool) (ctxObj : Option BObj)
    (euid : Nat) (buf : UserWriteBuf) :
    ∀ (fuel p : Nat) (proc : Proc) (thread : Thread) (o : Nat),
      o ∈ (binder_thread_write_loop openQ ctxObj euid buf fuel p proc thread).fetched →
      o + sizeofU32 < buf.size := by
  intro fuel
  induction fuel with
  | zero => intro p proc thread o h; simp [binder_thread_write_loop] at h
  | succ n ih =>
      intro p proc thread o h
      unfold binder_thread_write_loop at h
      dsimp only [] at h
      by_cases hp : p + sizeofU32 < buf.size
      · rw [if_pos hp] at h
        repeat' split at h
        all_goals dsimp only [] at h
        all_goals simp only [List.mem_cons, List.mem_singleton, List.not_mem_nil,
          or_false] at h
        all_goals first
          | exact h.elim
          | exact h ▸ hp
          | (cases h with
             | inl he => exact he ▸ hp
             | inr hm => exact ih _ _ _ _ hm)
      · rw [if_neg hp] at h
        simp at h

/-- Claim C10: the write dispatcher's loop guard is strict.  A command word
is fetched at byte offset p only when p + sizeof(u32) is strictly below the
end of the write buffer, so a bare 4-byte command that ends exactly at the
buffer's end is never fetched or executed; in particular a 4-byte buffer
holding a single looper command (or anything else) is not consumed at all:
binder_thread_write reports 0 consumed bytes, changes no state and sends
nothing. -/
theorem write_dispatcher_strict_guard :
    (∀ (openQ : Ptr → Bool) (ctxObj : Option BObj) (euid : Nat) (buf : UserWriteBuf)
        (proc : Proc) (thread : Thread) (o : Nat),
      o ∈ (binder_thread_write openQ ctxObj euid buf proc thread).fetched →
      o + sizeofU32 < buf.size) ∧
    (∀ (openQ : Ptr → Bool) (ctxObj : Option BObj) (euid : Nat) (buf : UserWriteBuf)
        (proc : Proc) (thread : Thread),
      buf.size = sizeofU32 →
      binder_thread_write openQ ctxObj euid buf proc thread =
        ⟨0, proc, thread, [], 0, []⟩) := by
  constructor
  · intro openQ ctxObj euid buf proc thread o h
    exact thread_write_loop_fetched openQ ctxObj euid buf _ 0 proc thread o h
  · intro openQ ctxObj euid buf proc thread hsz
    unfold binder_thread_write binder_thread_write_loop
    rw [if_neg (by omega : ¬ 0 + sizeofU32 < buf.size)]
    simp

/-- A 4-byte write buffer holding exactly one BC_ENTER_LOOPER word, and a
12-byte one holding three: in the latter the third word starts at offset 8
and ends exactly at the end, so only offsets 0 and 4 are fetched. -/
def exBuf4 : UserWriteBuf :=
  { size := 4, word := fun _ => BC_ENTER_LOOPER, tdata := fun _ => default,
    notifier := fun _ => default }

def exBuf12 : UserWriteBuf :=
  { size := 12, word := fun _ => BC_ENTER_LOOPER, tdata := fun _ => default,
    notifier := fun _ => default }

/-- Witness for the strict write-loop guard: in the 12-byte stream of three
looper words the first fetch (offset 0) satisfies the strict bound, and the
4-byte single-command buffer is not consumed at all. -/
theorem write_dispatcher_strict_guard_witness :
    0 + sizeofU32 < exBuf12.size ∧
    binder_thread_write allOpen none 0 exBuf4 exProcA exThread =
      ⟨0, exProcA, exThread, [], 0, []⟩ :=
  ⟨write_dispatcher_strict_guard.1 allOpen none 0 exBuf12 exProcA exThread 0
      (by decide),
   write_dispatcher_strict_guard.2 allOpen none 0 exBuf4 exProcA exThread rfl⟩
